import Mathlib

/-!
Verification of the enviroplus_exporter core algorithms: the sliding-window
pressure-trend analyzer, the CPU-temperature compensation, the AQI
computation and classification helpers, and the temperature unit classes.
All numeric state is embedded over ℚ; Python/numpy float exceptions to exact
arithmetic (division by zero producing NaN or ±Inf) are modelled explicitly
by the PyFloat type.
-/

namespace Enviroplus

/-- numpy.mean of a list: sum divided by length (the empty case never occurs
in the analysed call sites; Lean's division by zero then yields 0). -/
def npMean (l : List ℚ) : ℚ :=
  l.sum / (l.length : ℚ)

/-- numpy.var of a list: population variance, the mean of squared deviations
from the mean. -/
def npVar (l : List ℚ) : ℚ :=
  npMean (l.map (fun y => (y - npMean l) ^ 2))

/-- The value of a float expression that may be NaN or infinite: numpy's
division emits NaN for 0/0 and ±Inf for x/0 (x ≠ 0) with a warning rather
than raising, so these values flow into later comparisons. -/
inductive PyFloat where
  | num (q : ℚ)
  | nan
  | inf
  | ninf
deriving DecidableEq

/-- numpy float division: 0/0 is NaN, positive/0 is +Inf, negative/0 is -Inf;
otherwise the exact quotient. -/
def pyDiv (a b : ℚ) : PyFloat :=
  if b = 0 then
    if a = 0 then .nan else if 0 < a then .inf else .ninf
  else
    .num (a / b)

/-- Float subtraction 1 - x: 1 - NaN is NaN, 1 - Inf is -Inf, 1 - (-Inf) is Inf. -/
def PyFloat.oneSub : PyFloat → PyFloat
   | .num q => .num (1 - q)
   | .nan => .nan
   | .inf => .ninf
   | .ninf => .inf

/-- The float comparison x > q: NaN compares false against everything,
+Inf is greater than every rational, -Inf than none. -/
def PyFloat.gtQ : PyFloat → ℚ → Bool
   | .num x, q => decide (q < x)
   | .nan, _ => false
   | .inf, _ => true
   | .ninf, _ => false

/-- Least-squares slope of numpy.polyfit(xs, ys, 1): the closed form of the
normal equations. The degenerate branch (all xs equal) stands in for
numpy's lstsq fallback and is not relied on by any theorem. -/
def polyfitSlope (xs ys : List ℚ) : ℚ :=
  let n : ℚ := (xs.length : ℚ)
  let d := n * (xs.map (fun x => x ^ 2)).sum - xs.sum ^ 2
  if d = 0 then 0
  else (n * ((xs.zip ys).map (fun q => q.1 * q.2)).sum - xs.sum * ys.sum) / d

/-- Least-squares intercept of numpy.polyfit(xs, ys, 1). -/
def polyfitIntercept (xs ys : List ℚ) : ℚ :=
  let n : ℚ := (xs.length : ℚ)
  if n = 0 then 0 else (ys.sum - polyfitSlope xs ys * xs.sum) / n

/-- The residual variance of the fitted line: numpy.var of
[slope * x + intercept - y for x, y in zip(time_vals, pressure_vals)]. -/
def residualVar (xs ys : List ℚ) : ℚ :=
  npVar ((xs.zip ys).map
    (fun q => polyfitSlope xs ys * q.1 + polyfitIntercept xs ys - q.2))

/-- r_squared = 1 - residuals / variance, as a float: when the pressure
variance is zero the division yields NaN or +Inf and r_squared NaN or -Inf. -/
def rSquared (xs ys : List ℚ) : PyFloat :=
  (pyDiv (residualVar xs ys) (npVar ys)).oneSub

/-- change_per_hour = slope * 60 * 60. -/
def changePerHour (xs ys : List ℚ) : ℚ :=
  polyfitSlope xs ys * 60 * 60

/-- The state of PressureAnalyzer (sensors.py); the module-level globals
pressure_vals / time_vals / num_vals / trend of enviroplus_exporter.py are
the same state with num_vals = 1000. -/
structure PressureAnalyzer where
  pressure_vals : List ℚ
  time_vals : List ℚ
  num_vals : ℕ
  trend : String
deriving DecidableEq

/-- PressureAnalyzer.__init__(max_values=1000). -/
def PressureAnalyzer.init (max_values : ℕ := 1000) : PressureAnalyzer :=
  { pressure_vals := [], time_vals := [], num_vals := max_values, trend := "-" }

/-- The updated state together with the returned triple
(mean_pressure, change_per_hour, trend) of analyse_pressure. -/
structure AnalyseResult where
  state : PressureAnalyzer
  mean_pressure : ℚ
  change_per_hour : ℚ
  trend : String
deriving DecidableEq

/-- The trend update of the sliding branch: when the goodness-of-fit test
succeeds, classify change_per_hour against ±0.5 and double the symbol when
|change_per_hour| > 3 (Python's trend *= 2 on the one-character string);
when it fails, keep the previous trend. -/
def classifyTrend (prev : String) (fitGood : Bool) (change : ℚ) : String :=
  if fitGood then
    let t0 := if (1 : ℚ) / 2 < change then ">"
      else if change < -(1 / 2) then "<" else "-"
    if t0 ≠ "-" ∧ 3 < |change| then t0 ++ t0 else t0
  else prev

/-- PressureAnalyzer.analyse_pressure(pressure, t): if the stored series
exceeds num_vals, slide the window (drop the oldest, append the newest),
fit a line and reclassify the trend only when r_squared > 0.5; otherwise
append and report a flat trend with change 0. -/
def analyse_pressure (s : PressureAnalyzer) (pressure t : ℚ) : AnalyseResult :=
  if s.num_vals < s.pressure_vals.length then
    let pv := s.pressure_vals.tail ++ [pressure]
    let tv := s.time_vals.tail ++ [t]
    let change := changePerHour tv pv
    let newTrend := classifyTrend s.trend ((rSquared tv pv).gtQ (1 / 2)) change
    { state := { pressure_vals := pv, time_vals := tv,
                 num_vals := s.num_vals, trend := newTrend },
      mean_pressure := npMean pv, change_per_hour := change, trend := newTrend }
  else
    let pv := s.pressure_vals ++ [pressure]
    let tv := s.time_vals ++ [t]
    { state := { pressure_vals := pv, time_vals := tv,
                 num_vals := s.num_vals, trend := "-" },
      mean_pressure := npMean pv, change_per_hour := 0, trend := "-" }

/-- Run analyse_pressure over a list of (pressure, timestamp) inputs,
collecting the final state and the per-call returned triples. -/
def runAnalyse (s : PressureAnalyzer) :
    List (ℚ × ℚ) → PressureAnalyzer × List (ℚ × ℚ × String)
  | [] => (s, [])
  | (p, t) :: rest =>
    let r := analyse_pressure s p t
    let w := runAnalyse r.state rest
    (w.1, (r.mean_pressure, r.change_per_hour, r.trend) :: w.2)

/-- The state of TemperatureSensor in sensors.py: the damping factor and the
FIFO window of recent CPU-temperature readings. -/
structure TemperatureSensor where
  factor : ℚ
  cpu_temps : List ℚ
deriving DecidableEq

/-- TemperatureSensor.__init__(factor=2.25, smoothing_count=5): the window
is seeded by repeating the first CPU reading smoothing_count times. -/
def TemperatureSensor.init (first_cpu : ℚ) (factor : ℚ := 9 / 4)
    (smoothing_count : ℕ := 5) : TemperatureSensor :=
  { factor := factor, cpu_temps := List.replicate smoothing_count first_cpu }

/-- TemperatureSensor.get_compensated_temperature, with the two sensor reads
(current CPU temperature and raw BME280 temperature) supplied as inputs:
the window drops its oldest sample and appends the new CPU reading, and the
returned value is raw - ((avg_cpu - raw) / factor). -/
def get_compensated_temperature (s : TemperatureSensor) (cpu_temp raw_temp : ℚ) :
    TemperatureSensor × ℚ :=
  let cpu_temps := s.cpu_temps.tail ++ [cpu_temp]
  let avg_cpu_temp := cpu_temps.sum / (cpu_temps.length : ℚ)
  ({ factor := s.factor, cpu_temps := cpu_temps },
   raw_temp - ((avg_cpu_temp - raw_temp) / s.factor))

/-- Python exceptions raised by the embedded code. -/
inductive PyErr where
  | notImplementedError
  | valueError
  | zeroDivisionError
  | keyError
  | jsonDecodeError
  | timeoutError
  | typeError
deriving DecidableEq

/-- The runtime class of a temperature object: the base Temperature class or
one of the unit subclasses Celsius / Fahrenheit. -/
inductive TempUnit where
  | base
  | celsius
  | fahrenheit
deriving DecidableEq

/-- A Temperature object: its runtime class and its _value field. -/
structure Temperature where
  unit : TempUnit
  _value : ℚ
deriving DecidableEq

/-- Celsius(x). -/
def mkCelsius (x : ℚ) : Temperature := { unit := .celsius, _value := x }

/-- Fahrenheit(x). -/
def mkFahrenheit (x : ℚ) : Temperature := { unit := .fahrenheit, _value := x }

/-- to_celsius: raises NotImplementedError on the base class, returns self on
Celsius, converts (value - 32) * 5 / 9 on Fahrenheit. -/
def Temperature.to_celsius : Temperature → Except PyErr Temperature
   | { unit := .base, _value := _ } => .error .notImplementedError
   | { unit := .celsius, _value := v } => .ok (mkCelsius v)
   | { unit := .fahrenheit, _value := v } => .ok (mkCelsius ((v - 32) * 5 / 9))

/-- to_fahrenheit: raises NotImplementedError on the base class, converts
value * 9 / 5 + 32 on Celsius, returns self on Fahrenheit. -/
def Temperature.to_fahrenheit : Temperature → Except PyErr Temperature
   | { unit := .base, _value := _ } => .error .notImplementedError
   | { unit := .celsius, _value := v } => .ok (mkFahrenheit (v * 9 / 5 + 32))
   | { unit := .fahrenheit, _value := v } => .ok (mkFahrenheit v)

/-- A Python value appearing as the right operand of Temperature arithmetic:
another Temperature, a plain number, or anything else. -/
inductive PyVal where
  | temp (t : Temperature)
  | num (q : ℚ)
  | otherVal
deriving DecidableEq

/-- Temperature.__add__: any Temperature operand (whatever its subclass)
yields a base-class Temperature carrying the summed value; any other operand
raises ValueError. -/
def Temperature.add (self : Temperature) : PyVal → Except PyErr Temperature
   | .temp t => .ok { unit := .base, _value := self._value + t._value }
   | _ => .error .valueError

/-- Temperature.__truediv__: a numeric divisor yields a base-class
Temperature with the divided value (Python raises ZeroDivisionError on a
zero divisor); any other operand raises ValueError. -/
def Temperature.truediv (self : Temperature) : PyVal → Except PyErr Temperature
   | .num q =>
     if q = 0 then .error .zeroDivisionError
     else .ok { unit := .base, _value := self._value / q }
   | _ => .error .valueError

/-- describe_aqi (aqi_utilities.py and enviroplus_exporter.py): the chain of
range tests, falling through to the final conditional return. -/
def describe_aqi (aqi : ℚ) : String :=
  if aqi < 0 then "???"
  else if 0 < aqi ∧ aqi < 50 then "Good"
  else if 51 ≤ aqi ∧ aqi ≤ 100 then "OK"
  else if 101 ≤ aqi ∧ aqi ≤ 150 then "Poor"
  else if 151 ≤ aqi ∧ aqi ≤ 200 then "Bad"
  else if 201 ≤ aqi ∧ aqi ≤ 300 then "Very Bad"
  else if 300 < aqi then "XXX" else "?"

/-- One row of the EPA breakpoint table: a concentration range and the AQI
sub-index range it maps onto linearly. -/
structure Breakpoint where
  cLow : ℚ
  cHigh : ℚ
  iLow : ℚ
  iHigh : ℚ
deriving DecidableEq

/-- Modelled from the spec: the official EPA breakpoint table for PM2.5
(µg/m³, 24-hour), required because the piecewise-linear formula lives in the
external aqi package rather than in this repository. -/
def pm25Breakpoints : List Breakpoint :=
  [⟨0, 12, 0, 50⟩,
   ⟨121 / 10, 354 / 10, 51, 100⟩,
   ⟨355 / 10, 554 / 10, 101, 150⟩,
   ⟨555 / 10, 1504 / 10, 151, 200⟩,
   ⟨1505 / 10, 2504 / 10, 201, 300⟩,
   ⟨2505 / 10, 3504 / 10, 301, 400⟩,
   ⟨3505 / 10, 5004 / 10, 401, 500⟩]

/-- Modelled from the spec: the official EPA breakpoint table for PM10
(µg/m³, 24-hour). -/
def pm10Breakpoints : List Breakpoint :=
  [⟨0, 54, 0, 50⟩,
   ⟨55, 154, 51, 100⟩,
   ⟨155, 254, 101, 150⟩,
   ⟨255, 354, 151, 200⟩,
   ⟨355, 424, 201, 300⟩,
   ⟨425, 504, 301, 400⟩,
   ⟨505, 604, 401, 500⟩]

/-- The first breakpoint row whose upper concentration bound is not exceeded. -/
def findBreakpoint : List Breakpoint → ℚ → Option Breakpoint
  | [], _ => none
  | b :: rest, c => if c ≤ b.cHigh then some b else findBreakpoint rest c

/-- Modelled from the spec: the EPA piecewise-linear sub-index of one
pollutant — linear interpolation inside the matching breakpoint row, and
saturation at the highest defined index tier (500) above the top breakpoint
rather than extrapolation. -/
def subIndex (table : List Breakpoint) (c : ℚ) : ℚ :=
  match findBreakpoint table c with
  | some b => (b.iHigh - b.iLow) / (b.cHigh - b.cLow) * (c - b.cLow) + b.iLow
  | none => 500

/-- Modelled from the spec: aqi.to_aqi over PM2.5 and PM10 — one sub-index
per pollutant, returning the maximum of the two. -/
def to_aqi (pm25 pm10 : ℚ) : ℚ :=
  max (subIndex pm25Breakpoints pm25) (subIndex pm10Breakpoints pm10)

/-- A value passed to aqi.to_aqi as a concentration: a number, or the
SensorMetrics instance self (which the library cannot convert to a number). -/
inductive AqiArg where
  | conc (c : ℚ)
  | selfObj
deriving DecidableEq

/-- aqi.to_aqi as invoked on possibly non-numeric arguments: the library
converts each concentration to a number first, raising on an object that is
not number-like, and otherwise computes the EPA maximum sub-index. -/
def to_aqi_checked : AqiArg → AqiArg → Except PyErr ℚ
  | .conc a, .conc b => .ok (to_aqi a b)
  | _, _ => .error .typeError

/-- The myaqi computation of SensorMetrics.get_particulates (sensors.py line
448): aqi.to_aqi([(POLLUTANT_PM25, self), (POLLUTANT_PM10, pm10)]) — the
instance self, not the measured pm25 value, occupies the PM2.5 slot. -/
def sensors_myaqi (pm10 : ℚ) : Except PyErr ℚ :=
  to_aqi_checked .selfObj (.conc pm10)

/-- The myaqi computation of get_particulates in enviroplus_exporter.py
(lines 441-446): both slots receive the measured concentrations. -/
def exporter_myaqi (pm25 pm10 : ℚ) : Except PyErr ℚ :=
  to_aqi_checked (.conc pm25) (.conc pm10)

/-- The observable content of the JSON payload of the WAQI response, as the
two functions access it: data["status"], int(data["data"]["aqi"]) (a
composite access that raises KeyError / ValueError when the keys are absent
or the value is not int-convertible), and the bare access of data["data"]
performed when printing an error. -/
structure JsonData where
  statusField : Except PyErr String
  aqiInt : Except PyErr ℤ
  dataAccess : Except PyErr Unit

/-- A requests.Response: its status code and the result of .json(), which
raises on a malformed body. -/
structure HttpResponse where
  status_code : ℤ
  json : Except PyErr JsonData

/-- The outcome of requests.get(url, timeout=10): an exception (timeout,
connection error, ...) or a response. -/
inductive GetOutcome where
  | raises (e : PyErr)
  | resp (r : HttpResponse)

/-- The body of the try block of get_external_AQI in aqi_utilities.py:
parse the JSON, return int(data["data"]["aqi"]) on a 200 response, otherwise
print data["data"] and return -1; any raised exception propagates out of
this block to the except handler. -/
def getExternalAQITry (o : GetOutcome) : Except PyErr ℤ :=
  match o with
  | .raises e => .error e
  | .resp r =>
    match r.json with
    | .error e => .error e
    | .ok data =>
      if r.status_code = 200 then
        data.aqiInt
      else
        match data.dataAccess with
        | .error e => .error e
        | .ok _ => .ok (-1)

/-- get_external_AQI in aqi_utilities.py: the whole interaction sits inside
try/except Exception, so every failure becomes the sentinel -1. -/
def get_external_AQI (o : GetOutcome) : ℤ :=
  match getExternalAQITry o with
  | .ok v => v
  | .error _ => -1

/-- get_external_AQI in enviroplus_exporter.py (lines 1023-1041): no
try/except — requests.get, .json() and the field accesses raise straight to
the caller; only a non-200 status or a non-"ok" status field reach the final
return -1. -/
def get_external_AQI_exporter (o : GetOutcome) : Except PyErr ℤ :=
  match o with
  | .raises e => .error e
  | .resp r =>
    if r.status_code = 200 then
      match r.json with
      | .error e => .error e
      | .ok data =>
        match data.statusField with
        | .error e => .error e
        | .ok s =>
          if s = "ok" then
            data.aqiInt
          else
            match data.dataAccess with
            | .error e => .error e
            | .ok _ => .ok (-1)
    else
      .ok (-1)

/-- The success shape of the WAQI interaction for the aqi_utilities version:
the request returned, with status code 200, a parseable payload whose
data.aqi field converts to the integer z. -/
def succeedsWith (o : GetOutcome) (z : ℤ) : Prop :=
  ∃ r d, o = .resp r ∧ r.status_code = 200 ∧ r.json = .ok d ∧ d.aqiInt = .ok z

/-- C5: in SensorMetrics.get_particulates the PM2.5 slot of aqi.to_aqi
receives the SensorMetrics instance itself rather than the pm25 reading, so
the call raises instead of producing a sub-index (here evaluated at the
reading pm25 = 10, pm10 = 20); the duplicate in enviroplus_exporter.py
passes the concentrations and yields the maximum of the two EPA sub-indices,
with AQI(0, 0) = 0 and AQI(500, 500) saturating below the top tier 500. -/
theorem C5_sensors_aqi_gets_self :
    sensors_myaqi 20 = .error .typeError ∧
    exporter_myaqi 10 20 = .ok (to_aqi 10 20) ∧
    to_aqi 0 0 = 0 ∧
    to_aqi 500 500 ≤ 500 := by
  refine ⟨rfl, rfl, ?_, ?_⟩
  · norm_num [to_aqi, subIndex, findBreakpoint, pm25Breakpoints, pm10Breakpoints]
  · norm_num [to_aqi, subIndex, findBreakpoint, pm25Breakpoints, pm10Breakpoints]

/-- C6: describe_aqi maps negative values to the sentinel "???", the bands
(0, 50), [51, 100], [101, 150], [151, 200], [201, 300] to "Good" / "OK" /
"Poor" / "Bad" / "Very Bad", values above 300 to the top-tier "XXX", and
exactly 0 falls through every branch to the final catch-all "?". -/
theorem C6_describe_aqi_bands (aqi : ℚ) :
    (aqi < 0 → describe_aqi aqi = "???") ∧
    (0 < aqi → aqi < 50 → describe_aqi aqi = "Good") ∧
    (51 ≤ aqi → aqi ≤ 100 → describe_aqi aqi = "OK") ∧
    (101 ≤ aqi → aqi ≤ 150 → describe_aqi aqi = "Poor") ∧
    (151 ≤ aqi → aqi ≤ 200 → describe_aqi aqi = "Bad") ∧
    (201 ≤ aqi → aqi ≤ 300 → describe_aqi aqi = "Very Bad") ∧
    (300 < aqi → describe_aqi aqi = "XXX") ∧
    describe_aqi 0 = "?" := by
  unfold describe_aqi
  refine ⟨fun h => ?_, fun h1 h2 => ?_, fun h1 h2 => ?_, fun h1 h2 => ?_,
    fun h1 h2 => ?_, fun h1 h2 => ?_, fun h => ?_, by norm_num⟩
  · rw [if_pos h]
  · rw [if_neg (by linarith), if_pos ⟨h1, h2⟩]
  · rw [if_neg (by linarith), if_neg (by rintro ⟨_, h⟩; linarith),
      if_pos ⟨h1, h2⟩]
  · rw [if_neg (by linarith), if_neg (by rintro ⟨_, h⟩; linarith),
      if_neg (by rintro ⟨_, h⟩; linarith), if_pos ⟨h1, h2⟩]
  · rw [if_neg (by linarith), if_neg (by rintro ⟨_, h⟩; linarith),
      if_neg (by rintro ⟨_, h⟩; linarith), if_neg (by rintro ⟨_, h⟩; linarith),
      if_pos ⟨h1, h2⟩]
  · rw [if_neg (by linarith), if_neg (by rintro ⟨_, h⟩; linarith),
      if_neg (by rintro ⟨_, h⟩; linarith), if_neg (by rintro ⟨_, h⟩; linarith),
      if_neg (by rintro ⟨_, h⟩; linarith), if_pos ⟨h1, h2⟩]
  · rw [if_neg (by linarith), if_neg (by rintro ⟨_, h⟩; linarith),
      if_neg (by rintro ⟨h', _⟩; linarith), if_neg (by rintro ⟨h', _⟩; linarith),
      if_neg (by rintro ⟨h', _⟩; linarith), if_neg (by rintro ⟨_, h'⟩; linarith),
      if_pos h]

/-- C6 witness: concrete classifications at -1, 75, 350 and 0. -/
theorem C6_describe_aqi_bands_witness :
    describe_aqi (-1) = "???" ∧ describe_aqi 75 = "OK" ∧
    describe_aqi 350 = "XXX" ∧ describe_aqi 0 = "?" :=
  ⟨(C6_describe_aqi_bands (-1)).1 (by norm_num),
   (C6_describe_aqi_bands 75).2.2.1 (by norm_num) (by norm_num),
   (C6_describe_aqi_bands 350).2.2.2.2.2.2.1 (by norm_num),
   (C6_describe_aqi_bands 0).2.2.2.2.2.2.2⟩

/-- C9: converting Celsius(x) to Fahrenheit and back yields Celsius(x)
exactly (so in particular within 1e-9), and symmetrically Fahrenheit(x) to
Celsius and back yields Fahrenheit(x). -/
theorem C9_temperature_roundtrip (x : ℚ) :
    (mkCelsius x).to_fahrenheit.bind Temperature.to_celsius = .ok (mkCelsius x) ∧
    (mkFahrenheit x).to_celsius.bind Temperature.to_fahrenheit = .ok (mkFahrenheit x) := by
  constructor
  · show Except.ok (mkCelsius ((x * 9 / 5 + 32 - 32) * 5 / 9)) = _
    have : (x * 9 / 5 + 32 - 32) * 5 / 9 = x := by ring
    rw [this]
  · show Except.ok (mkFahrenheit ((x - 32) * 5 / 9 * 9 / 5 + 32)) = _
    have : (x - 32) * 5 / 9 * 9 / 5 + 32 = x := by ring
    rw [this]

/-- C10: adding two unit-tagged temperatures yields a base-class Temperature
whose to_celsius / to_fahrenheit raise NotImplementedError (although both
operands supported them), dividing by a nonzero number likewise yields a
base-class Temperature, and adding a non-Temperature raises ValueError. -/
theorem C10_arithmetic_loses_unit (x y q : ℚ) (hq : q ≠ 0) :
    (mkCelsius x).add (.temp (mkCelsius y)) = .ok { unit := .base, _value := x + y } ∧
    (∀ t : Temperature, t.unit = .base →
      t.to_celsius = .error .notImplementedError ∧
      t.to_fahrenheit = .error .notImplementedError) ∧
    (mkCelsius x).truediv (.num q) = .ok { unit := .base, _value := x / q } ∧
    (mkCelsius x).add (.num y) = .error .valueError ∧
    (mkCelsius x).add .otherVal = .error .valueError ∧
    (mkCelsius x).to_celsius = .ok (mkCelsius x) ∧
    (mkCelsius x).to_fahrenheit = .ok (mkFahrenheit (x * 9 / 5 + 32)) := by
  refine ⟨rfl, ?_, ?_, rfl, rfl, rfl, rfl⟩
  · rintro ⟨u, v⟩ hu
    cases u with
    | base => exact ⟨rfl, rfl⟩
    | celsius => cases hu
    | fahrenheit => cases hu
  · simp [Temperature.truediv, hq, mkCelsius]

/-- C10 witness: Celsius(1) + Celsius(2) is a base Temperature of value 3,
whose to_celsius raises NotImplementedError, and Celsius(1) / 2 is a base
Temperature of value 1/2; Celsius(1) + 5 raises ValueError. -/
theorem C10_arithmetic_loses_unit_witness :
    (mkCelsius 1).add (.temp (mkCelsius 2)) = .ok { unit := .base, _value := 3 } ∧
    Temperature.to_celsius { unit := .base, _value := 3 } = .error .notImplementedError ∧
    (mkCelsius 1).truediv (.num 2) = .ok { unit := .base, _value := 1 / 2 } ∧
    (mkCelsius 1).add (.num 5) = .error .valueError := by
  refine ⟨?_, ?_, ?_, ?_⟩
  · have h := (C10_arithmetic_loses_unit 1 2 2 (by norm_num)).1
    rw [show ((1 : ℚ) + 2) = 3 by norm_num] at h
    exact h
  · exact ((C10_arithmetic_loses_unit 1 2 2 (by norm_num)).2.1 _ rfl).1
  · have h := (C10_arithmetic_loses_unit 1 2 2 (by norm_num)).2.2.1
    exact h
  · exact (C10_arithmetic_loses_unit 1 5 2 (by norm_num)).2.2.2.1

/-- C7 counterexample: in the enviroplus_exporter.py version of
get_external_AQI a network timeout inside requests.get escapes to the caller
as an exception instead of becoming the sentinel -1, refuting the claim that
every failure mode of every version returns -1 with no exception escaping. -/
theorem C7_exporter_timeout_escapes :
    get_external_AQI_exporter (.raises .timeoutError) = .error .timeoutError ∧
    (Except.error PyErr.timeoutError : Except PyErr ℤ) ≠ .ok (-1) :=
  ⟨rfl, fun h => by cases h⟩

/-- C7 amended: the aqi_utilities.py version of get_external_AQI returns the
integer AQI of a 200 response whose payload parses and whose data.aqi field
converts, and the sentinel -1 on every other outcome (timeout, malformed
payload, non-200 status, missing field), never letting an exception escape;
the enviroplus_exporter.py version only guarantees -1 on a non-200 response
that was itself obtained without an exception. -/
theorem C7_sentinel_on_failure (o : GetOutcome) :
    (∀ z : ℤ, succeedsWith o z → get_external_AQI o = z) ∧
    ((¬ ∃ z : ℤ, succeedsWith o z) → get_external_AQI o = -1) ∧
    (∀ r : HttpResponse, o = .resp r → r.status_code ≠ 200 →
      get_external_AQI_exporter o = .ok (-1)) := by
  refine ⟨?_, ?_, ?_⟩
  · rintro z ⟨r, d, rfl, h200, hjson, haqi⟩
    simp [get_external_AQI, getExternalAQITry, hjson, h200, haqi]
  · intro hfail
    cases o with
    | raises e => rfl
    | resp r =>
      rcases hj : r.json with e | d
      · simp [get_external_AQI, getExternalAQITry, hj]
      · by_cases h200 : r.status_code = 200
        · rcases ha : d.aqiInt with e | z
          · simp [get_external_AQI, getExternalAQITry, hj, h200, ha]
          · exact absurd ⟨z, r, d, rfl, h200, hj, ha⟩ hfail
        · rcases hd : d.dataAccess with e | u
          · simp [get_external_AQI, getExternalAQITry, hj, h200, hd]
          · simp [get_external_AQI, getExternalAQITry, hj, h200, hd]
  · rintro r rfl h200
    simp [get_external_AQI_exporter, h200]

/-- C7 witness: a successful 200 response with aqi 42 yields 42; a timeout
yields -1 in the aqi_utilities version; a 500 response yields -1 in the
exporter version. -/
theorem C7_sentinel_on_failure_witness :
    get_external_AQI (.resp ⟨200, .ok ⟨.ok "ok", .ok 42, .ok ()⟩⟩) = 42 ∧
    get_external_AQI (.raises .timeoutError) = -1 ∧
    get_external_AQI_exporter (.resp ⟨500, .error .jsonDecodeError⟩) = .ok (-1) := by
  refine ⟨?_, ?_, ?_⟩
  · exact (C7_sentinel_on_failure _).1 42 ⟨_, _, rfl, rfl, rfl, rfl⟩
  · exact (C7_sentinel_on_failure _).2.1 (by rintro ⟨z, r, d, h, _⟩; cases h)
  · exact (C7_sentinel_on_failure _).2.2 _ rfl (by decide)

/-- A numpy variance is a mean of squares, hence nonnegative. -/
lemma npVar_nonneg (l : List ℚ) : 0 ≤ npVar l := by
  unfold npVar npMean
  apply div_nonneg
  · apply List.sum_nonneg
    intro x hx
    simp only [List.mem_map] at hx
    obtain ⟨y, _, rfl⟩ := hx
    positivity
  · positivity

/-- The residual variance is nonnegative. -/
lemma residualVar_nonneg (xs ys : List ℚ) : 0 ≤ residualVar xs ys :=
  npVar_nonneg _

/-- The sliding branch of analyse_pressure, written out. -/
lemma analyse_pressure_slide (s : PressureAnalyzer) (p t : ℚ)
    (hcap : s.num_vals < s.pressure_vals.length) :
    analyse_pressure s p t =
      { state := { pressure_vals := s.pressure_vals.tail ++ [p],
                   time_vals := s.time_vals.tail ++ [t],
                   num_vals := s.num_vals,
                   trend := classifyTrend s.trend
                     ((rSquared (s.time_vals.tail ++ [t])
                       (s.pressure_vals.tail ++ [p])).gtQ (1 / 2))
                     (changePerHour (s.time_vals.tail ++ [t])
                       (s.pressure_vals.tail ++ [p])) },
        mean_pressure := npMean (s.pressure_vals.tail ++ [p]),
        change_per_hour := changePerHour (s.time_vals.tail ++ [t])
          (s.pressure_vals.tail ++ [p]),
        trend := classifyTrend s.trend
          ((rSquared (s.time_vals.tail ++ [t])
            (s.pressure_vals.tail ++ [p])).gtQ (1 / 2))
          (changePerHour (s.time_vals.tail ++ [t])
            (s.pressure_vals.tail ++ [p])) } := by
  unfold analyse_pressure
  rw [if_pos hcap]

/-- The appending branch of analyse_pressure, written out. -/
lemma analyse_pressure_append (s : PressureAnalyzer) (p t : ℚ)
    (hcap : s.pressure_vals.length ≤ s.num_vals) :
    analyse_pressure s p t =
      { state := { pressure_vals := s.pressure_vals ++ [p],
                   time_vals := s.time_vals ++ [t],
                   num_vals := s.num_vals, trend := "-" },
        mean_pressure := npMean (s.pressure_vals ++ [p]),
        change_per_hour := 0, trend := "-" } := by
  unfold analyse_pressure
  rw [if_neg (by omega)]

/-- A failed goodness-of-fit test keeps the previous trend. -/
lemma classifyTrend_false (prev : String) (change : ℚ) :
    classifyTrend prev false change = prev := rfl

/-- In the sliding branch, when the goodness-of-fit test fails the trend
field is left untouched and returned unchanged. -/
lemma slide_trend_of_nofit (s : PressureAnalyzer) (p t : ℚ)
    (hcap : s.num_vals < s.pressure_vals.length)
    (hg : (rSquared (s.time_vals.tail ++ [t])
      (s.pressure_vals.tail ++ [p])).gtQ (1 / 2) = false) :
    (analyse_pressure s p t).state.trend = s.trend ∧
    (analyse_pressure s p t).trend = s.trend := by
  rw [analyse_pressure_slide s p t hcap]
  rw [hg]
  exact ⟨rfl, rfl⟩

/-- C1: when the stored series already exceeds capacity and the computed
r_squared is a real number at most 0.5, analyse_pressure retains the
previous trend symbol unchanged, both in its state and in its return value. -/
theorem C1_poor_fit_retains_trend (s : PressureAnalyzer) (p t q : ℚ)
    (hcap : s.num_vals < s.pressure_vals.length)
    (hr : rSquared (s.time_vals.tail ++ [t]) (s.pressure_vals.tail ++ [p]) = .num q)
    (hq : q ≤ 1 / 2) :
    (analyse_pressure s p t).state.trend = s.trend ∧
    (analyse_pressure s p t).trend = s.trend := by
  apply slide_trend_of_nofit s p t hcap
  rw [hr]
  simp only [PyFloat.gtQ, decide_eq_false_iff_not, not_lt]
  exact hq

/-- C1 witness: a noisy window past capacity with r_squared = 0 keeps the
previous trend ">" instead of resetting it. -/
theorem C1_poor_fit_retains_trend_witness :
    (analyse_pressure ⟨[1000, 1002, 1000], [0, 1, 2], 2, ">"⟩ 1002 3).state.trend = ">" ∧
    (analyse_pressure ⟨[1000, 1002, 1000], [0, 1, 2], 2, ">"⟩ 1002 3).trend = ">" :=
  C1_poor_fit_retains_trend ⟨[1000, 1002, 1000], [0, 1, 2], 2, ">"⟩ 1002 3 0
    (by decide)
    (by norm_num [rSquared, residualVar, npVar, npMean, polyfitSlope,
      polyfitIntercept, pyDiv, PyFloat.oneSub])
    (by norm_num)

/-- C2: when the analyzer is past capacity and the pressure window is
degenerate (zero variance, as with a constant pressure series), the division
by zero inside r_squared yields a NaN or infinite float whose comparison
with 0.5 is false, so the call completes with the previous trend retained. -/
theorem C2_zero_variance_retains_trend (s : PressureAnalyzer) (p t : ℚ)
    (hcap : s.num_vals < s.pressure_vals.length)
    (hvar : npVar (s.pressure_vals.tail ++ [p]) = 0) :
    (analyse_pressure s p t).state.trend = s.trend ∧
    (analyse_pressure s p t).trend = s.trend ∧
    (rSquared (s.time_vals.tail ++ [t])
      (s.pressure_vals.tail ++ [p])).gtQ (1 / 2) = false := by
  have hres : 0 ≤ residualVar (s.time_vals.tail ++ [t]) (s.pressure_vals.tail ++ [p]) :=
    residualVar_nonneg _ _
  have hg : (rSquared (s.time_vals.tail ++ [t])
      (s.pressure_vals.tail ++ [p])).gtQ (1 / 2) = false := by
    unfold rSquared pyDiv
    rw [hvar, if_pos rfl]
    rcases eq_or_lt_of_le hres with h0 | h0
    · rw [if_pos h0.symm]
      rfl
    · rw [if_neg h0.ne', if_pos h0]
      rfl
  have h := slide_trend_of_nofit s p t hcap hg
  exact ⟨h.1, h.2, hg⟩

/-- C2 witness: a constant window [1000, 1000] past capacity keeps the
previous trend "<". -/
theorem C2_zero_variance_retains_trend_witness :
    (analyse_pressure ⟨[1000, 1000], [0, 1], 1, "<"⟩ 1000 2).state.trend = "<" ∧
    (analyse_pressure ⟨[1000, 1000], [0, 1], 1, "<"⟩ 1000 2).trend = "<" ∧
    (rSquared [1, 2] [1000, 1000]).gtQ (1 / 2) = false :=
  C2_zero_variance_retains_trend ⟨[1000, 1000], [0, 1], 1, "<"⟩ 1000 2
    (by decide) (by norm_num [npVar, npMean])

/-- Every call preserves the capacity field num_vals. -/
lemma analyse_num_vals (s : PressureAnalyzer) (p t : ℚ) :
    (analyse_pressure s p t).state.num_vals = s.num_vals := by
  unfold analyse_pressure
  split <;> rfl

/-- One call grows the stored series by one while at or below capacity and
keeps its length unchanged past capacity. -/
lemma analyse_len (s : PressureAnalyzer) (p t : ℚ) :
    (analyse_pressure s p t).state.pressure_vals.length =
      if s.num_vals < s.pressure_vals.length then s.pressure_vals.length
      else s.pressure_vals.length + 1 := by
  by_cases h : s.num_vals < s.pressure_vals.length
  · rw [analyse_pressure_slide s p t h, if_pos h]
    simp only [List.length_append, List.length_tail, List.length_cons,
      List.length_nil]
    omega
  · rw [analyse_pressure_append s p t (by omega), if_neg h]
    simp

/-- The stored length after a run from any admissible state: it grows by one
per call until it reaches num_vals + 1 and then stays there. -/
lemma runAnalyse_len (inputs : List (ℚ × ℚ)) : ∀ (s : PressureAnalyzer),
    s.pressure_vals.length ≤ s.num_vals + 1 →
    (runAnalyse s inputs).1.pressure_vals.length =
      min (s.pressure_vals.length + inputs.length) (s.num_vals + 1) := by
  induction inputs with
  | nil =>
    intro s h
    simp only [runAnalyse, List.length_nil]
    omega
  | cons pt rest ih =>
    intro s h
    obtain ⟨p, t⟩ := pt
    simp only [runAnalyse, List.length_cons]
    have hnum := analyse_num_vals s p t
    have hlen := analyse_len s p t
    by_cases hc : s.num_vals < s.pressure_vals.length
    · rw [if_pos hc] at hlen
      rw [ih _ (by rw [hlen, hnum]; omega), hlen, hnum]
      omega
    · rw [if_neg hc] at hlen
      rw [ih _ (by rw [hlen, hnum]; omega), hlen, hnum]
      omega

/-- While the whole run stays within the first num_vals + 1 calls, the final
state is the pure accumulation of appended pairs with a flat trend. -/
lemma runAnalyse_below_state (inputs : List (ℚ × ℚ)) : ∀ (s : PressureAnalyzer),
    s.pressure_vals.length + inputs.length ≤ s.num_vals + 1 →
    (runAnalyse s inputs).1.pressure_vals = s.pressure_vals ++ inputs.map Prod.fst ∧
    (runAnalyse s inputs).1.time_vals = s.time_vals ++ inputs.map Prod.snd ∧
    (runAnalyse s inputs).1.num_vals = s.num_vals ∧
    (runAnalyse s inputs).1.trend = (if inputs.length = 0 then s.trend else "-") := by
  induction inputs with
  | nil =>
    intro s h
    simp [runAnalyse]
  | cons pt rest ih =>
    intro s h
    obtain ⟨p, t⟩ := pt
    simp only [runAnalyse]
    have hlen : s.pressure_vals.length ≤ s.num_vals := by
      simp only [List.length_cons] at h
      omega
    rw [analyse_pressure_append s p t hlen]
    have := ih { pressure_vals := s.pressure_vals ++ [p],
                 time_vals := s.time_vals ++ [t],
                 num_vals := s.num_vals, trend := "-" }
      (by simp only [List.length_append, List.length_cons, List.length_nil] at h ⊢; omega)
    refine ⟨?_, ?_, ?_, ?_⟩
    · rw [this.1]
      simp
    · rw [this.2.1]
      simp
    · exact this.2.2.1
    · rw [this.2.2.2]
      simp only [List.length_cons]
      split <;> simp

/-- While the whole run stays within the first num_vals + 1 calls, the i-th
call returns the mean of the pressures accumulated so far, a change of 0 and
the flat trend. -/
lemma runAnalyse_below_outputs (inputs : List (ℚ × ℚ)) : ∀ (s : PressureAnalyzer),
    s.pressure_vals.length + inputs.length ≤ s.num_vals + 1 →
    ∀ i, i < inputs.length →
      (runAnalyse s inputs).2[i]? =
        some (npMean (s.pressure_vals ++ (inputs.map Prod.fst).take (i + 1)), 0, "-") := by
  induction inputs with
  | nil =>
    intro s h i hi
    simp at hi
  | cons pt rest ih =>
    intro s h i hi
    obtain ⟨p, t⟩ := pt
    simp only [runAnalyse]
    have hlen : s.pressure_vals.length ≤ s.num_vals := by
      simp only [List.length_cons] at h
      omega
    rw [analyse_pressure_append s p t hlen]
    cases i with
    | zero =>
      simp
    | succ j =>
      rw [List.getElem?_cons_succ]
      have hrec := ih { pressure_vals := s.pressure_vals ++ [p],
                        time_vals := s.time_vals ++ [t],
                        num_vals := s.num_vals, trend := "-" }
        (by simp only [List.length_append, List.length_cons, List.length_nil] at h ⊢; omega)
        j (by simp only [List.length_cons] at hi; omega)
      rw [hrec]
      simp [List.append_assoc]

/-- C3: starting from a fresh analyzer of capacity num_vals, the first
num_vals calls all take the appending branch: the final state holds exactly
the fed (pressure, timestamp) pairs with a flat trend, and the i-th call
returned the mean of the first i + 1 pressures, change_per_hour = 0 and
trend "-". -/
theorem C3_below_capacity_appends (n : ℕ) (inputs : List (ℚ × ℚ))
    (h : inputs.length ≤ n) :
    (runAnalyse (PressureAnalyzer.init n) inputs).1.pressure_vals = inputs.map Prod.fst ∧
    (runAnalyse (PressureAnalyzer.init n) inputs).1.time_vals = inputs.map Prod.snd ∧
    (runAnalyse (PressureAnalyzer.init n) inputs).1.trend = "-" ∧
    ∀ i, i < inputs.length →
      (runAnalyse (PressureAnalyzer.init n) inputs).2[i]? =
        some (npMean ((inputs.map Prod.fst).take (i + 1)), 0, "-") := by
  have hcap : (PressureAnalyzer.init n).pressure_vals.length + inputs.length ≤
      (PressureAnalyzer.init n).num_vals + 1 := by
    simp [PressureAnalyzer.init]
    omega
  have hstate := runAnalyse_below_state inputs (PressureAnalyzer.init n) hcap
  have houts := runAnalyse_below_outputs inputs (PressureAnalyzer.init n) hcap
  refine ⟨?_, ?_, ?_, ?_⟩
  · rw [hstate.1]
    rfl
  · rw [hstate.2.1]
    rfl
  · rw [hstate.2.2.2]
    split <;> rfl
  · intro i hi
    rw [houts i hi]
    rfl

/-- C3 witness: with capacity 2, two calls append both pairs and return the
running means 1000 and 2001/2 with change 0 and trend "-". -/
theorem C3_below_capacity_appends_witness :
    (runAnalyse (PressureAnalyzer.init 2) [(1000, 0), (1001, 1)]).1.pressure_vals
        = [1000, 1001] ∧
    (runAnalyse (PressureAnalyzer.init 2) [(1000, 0), (1001, 1)]).2[0]?
        = some (1000, 0, "-") ∧
    (runAnalyse (PressureAnalyzer.init 2) [(1000, 0), (1001, 1)]).2[1]?
        = some (2001 / 2, 0, "-") := by
  have h := C3_below_capacity_appends 2 [(1000, 0), (1001, 1)] (by norm_num)
  refine ⟨h.1, ?_, ?_⟩
  · rw [h.2.2.2 0 (by norm_num)]
    norm_num [npMean]
  · rw [h.2.2.2 1 (by norm_num)]
    norm_num [npMean]

/-- C4 counterexample: with capacity 1, the stored length is 2 = capacity + 1
after the third call and still 2 after the fourth — the series is never
trimmed back to the capacity, refuting the claim that the length exceeds
capacity only transiently. -/
theorem C4_length_never_trimmed :
    (runAnalyse (PressureAnalyzer.init 1) [(1, 0), (2, 1), (3, 2)]).1.pressure_vals.length = 2 ∧
    (runAnalyse (PressureAnalyzer.init 1)
      [(1, 0), (2, 1), (3, 2), (4, 3)]).1.pressure_vals.length = 2 ∧
    (runAnalyse (PressureAnalyzer.init 1)
      [(1, 0), (2, 1), (3, 2), (4, 3)]).1.pressure_vals.length ≠ 1 := by
  have h1 := runAnalyse_len [(1, 0), (2, 1), (3, 2)] (PressureAnalyzer.init 1)
    (by simp [PressureAnalyzer.init])
  have h2 := runAnalyse_len [(1, 0), (2, 1), (3, 2), (4, 3)] (PressureAnalyzer.init 1)
    (by simp [PressureAnalyzer.init])
  have h1' : (runAnalyse (PressureAnalyzer.init 1)
      [(1, 0), (2, 1), (3, 2)]).1.pressure_vals.length = 2 :=
    h1.trans (by norm_num [PressureAnalyzer.init])
  have h2' : (runAnalyse (PressureAnalyzer.init 1)
      [(1, 0), (2, 1), (3, 2), (4, 3)]).1.pressure_vals.length = 2 :=
    h2.trans (by norm_num [PressureAnalyzer.init])
  exact ⟨h1', h2', by omega⟩

/-- C4 amended: while the stored length is at most the capacity the call
appends; once the length exceeds the capacity the call evicts the oldest
pair and appends the newest; from a fresh analyzer the length after k calls
is min k (capacity + 1) — it reaches capacity + 1 and remains there forever,
never trimmed back down to the capacity. -/
theorem C4_sliding_window_length (n : ℕ) (inputs : List (ℚ × ℚ)) :
    (runAnalyse (PressureAnalyzer.init n) inputs).1.pressure_vals.length
        = min inputs.length (n + 1) ∧
    (∀ (s : PressureAnalyzer) (p t : ℚ), s.pressure_vals.length ≤ s.num_vals →
      (analyse_pressure s p t).state.pressure_vals = s.pressure_vals ++ [p] ∧
      (analyse_pressure s p t).state.time_vals = s.time_vals ++ [t]) ∧
    (∀ (s : PressureAnalyzer) (p t : ℚ), s.num_vals < s.pressure_vals.length →
      (analyse_pressure s p t).state.pressure_vals = s.pressure_vals.tail ++ [p] ∧
      (analyse_pressure s p t).state.time_vals = s.time_vals.tail ++ [t]) := by
  refine ⟨?_, ?_, ?_⟩
  · have := runAnalyse_len inputs (PressureAnalyzer.init n)
      (by simp [PressureAnalyzer.init])
    simpa [PressureAnalyzer.init] using this
  · intro s p t h
    rw [analyse_pressure_append s p t h]
    exact ⟨rfl, rfl⟩
  · intro s p t h
    rw [analyse_pressure_slide s p t h]
    exact ⟨rfl, rfl⟩

/-- C4 amended witness: with capacity 1, four calls leave length
min 4 2 = 2; an at-capacity state appends; a past-capacity state evicts the
oldest and appends the newest. -/
theorem C4_sliding_window_length_witness :
    (runAnalyse (PressureAnalyzer.init 1)
      [(1, 0), (2, 1), (3, 2), (4, 3)]).1.pressure_vals.length = min 4 2 ∧
    (analyse_pressure ⟨[5], [0], 1, "-"⟩ 6 1).state.pressure_vals = [5] ++ [6] ∧
    (analyse_pressure ⟨[5, 6], [0, 1], 1, "-"⟩ 7 2).state.pressure_vals
        = [5, 6].tail ++ [7] := by
  refine ⟨?_, ?_, ?_⟩
  · exact (C4_sliding_window_length 1 [(1, 0), (2, 1), (3, 2), (4, 3)]).1
  · exact ((C4_sliding_window_length 1 []).2.1 ⟨[5], [0], 1, "-"⟩ 6 1 (by decide)).1
  · exact ((C4_sliding_window_length 1 []).2.2 ⟨[5, 6], [0, 1], 1, "-"⟩ 7 2 (by decide)).1

/-- The tail of a replicated list drops one copy. -/
lemma tail_replicate_eq (n : ℕ) (x : ℚ) :
    (List.replicate n x).tail = List.replicate (n - 1) x := by
  cases n with
  | zero => rfl
  | succ m => simp [List.replicate_succ]

/-- C8: get_compensated_temperature returns raw - ((avg_cpu - raw) / factor)
where avg_cpu is the mean of the FIFO window after evicting the oldest
sample and appending the newest; the constructor defaults are factor = 2.25
and a window of 5 copies of the first CPU reading, and for any positive
window size n the first call sees a window of exactly n samples whose mean
is the well-defined rational ((n - 1) * first + cpu) / n. -/
theorem C8_compensated_temperature (s : TemperatureSensor) (cpu raw first : ℚ)
    (n : ℕ) (hn : 0 < n) :
    (get_compensated_temperature s cpu raw).2 =
        raw - ((npMean (s.cpu_temps.tail ++ [cpu]) - raw) / s.factor) ∧
    (get_compensated_temperature s cpu raw).1.cpu_temps = s.cpu_temps.tail ++ [cpu] ∧
    (TemperatureSensor.init first).cpu_temps = List.replicate 5 first ∧
    (TemperatureSensor.init first).factor = 9 / 4 ∧
    (TemperatureSensor.init first (9 / 4) n).cpu_temps.length = n ∧
    (get_compensated_temperature (TemperatureSensor.init first (9 / 4) n)
      cpu raw).1.cpu_temps.length = n ∧
    (get_compensated_temperature (TemperatureSensor.init first (9 / 4) n)
      cpu raw).2 =
        raw - ((((n : ℚ) - 1) * first + cpu) / (n : ℚ) - raw) / (9 / 4) := by
  have htail := tail_replicate_eq n first
  have hlen : ((List.replicate n first).tail ++ [cpu]).length = n := by
    rw [htail]
    simp only [List.length_append, List.length_replicate, List.length_cons,
      List.length_nil]
    omega
  have hsum : ((List.replicate n first).tail ++ [cpu]).sum = ((n : ℚ) - 1) * first + cpu := by
    rw [htail, List.sum_append, List.sum_replicate, List.sum_cons, List.sum_nil,
      nsmul_eq_mul]
    have hcast : ((n - 1 : ℕ) : ℚ) = (n : ℚ) - 1 := Nat.cast_pred hn
    rw [hcast]
    ring
  refine ⟨rfl, rfl, rfl, rfl, by simp [TemperatureSensor.init], ?_, ?_⟩
  · show ((List.replicate n first).tail ++ [cpu]).length = n
    exact hlen
  · show raw - ((((List.replicate n first).tail ++ [cpu]).sum /
        (((List.replicate n first).tail ++ [cpu]).length : ℚ) - raw) / (9 / 4)) = _
    rw [hsum, hlen]

/-- C8 witness: starting from a window seeded with 5 copies of 40, a call
with cpu = 50 and raw = 20 yields 20 - ((4 * 40 + 50) / 5 - 20) / (9/4)
= 92/9, over a window still holding 5 samples. -/
theorem C8_compensated_temperature_witness :
    (get_compensated_temperature (TemperatureSensor.init 40 (9 / 4) 5) 50 20).2 = 92 / 9 ∧
    (get_compensated_temperature
      (TemperatureSensor.init 40 (9 / 4) 5) 50 20).1.cpu_temps.length = 5 := by
  have h := C8_compensated_temperature (TemperatureSensor.init 40) 50 20 40 5 (by norm_num)
  exact ⟨h.2.2.2.2.2.2.trans (by norm_num), h.2.2.2.2.2.1⟩

end Enviroplus
